import Mathlib

/-!
Shallow embedding of `gen_results_summary.py` (xfstests-bld test appliance),
the module that turns a directory of xUnit result files into a text summary
report.  Pure data (suites, test cases, properties) is modelled directly;
file input is modelled by passing the already-loaded data; functions that can
raise a Python exception return `Option` (`none` = the call raises).

The external `junitparser` library is not part of the sources; following the
specification, a `Properties` collection is modelled as an ordered sequence of
(name, value) pairs, iterated in order, where removing an element shifts the
later elements down (ordinary Python sequence semantics).
-/

namespace GenResultsSummary

/-- One xUnit property: a (name, value) pair of strings. -/
structure Property where
  name : String
  value : String
deriving DecidableEq, Repr

/-- The result kind of a test case.  `junitparser` stores `Failure`, `Error`
or `Skipped` result objects; a passing test has no result object. -/
inductive RStatus where
  | pass
  | failure
  | error
  | skipped
deriving DecidableEq, Repr

/-- One test case of a suite: its name, result kind and duration.  Durations
and counters are modelled as natural numbers of seconds. -/
structure TestCase where
  name : String
  result : RStatus
  time : Nat
deriving DecidableEq, Repr

/-- One loaded test suite: its cases, the aggregate counters supplied by the
record file, the start timestamp, the hostname and the attached properties
collection (`none` when the record has no properties element). -/
structure TestSuite where
  cases : List TestCase
  tests : Nat
  skipped : Nat
  failures : Nat
  errors : Nat
  time : Nat
  timestamp : String
  hostname : String
  properties : Option (List Property)
deriving DecidableEq, Repr

/-- `get_property(props, key)`: value of the first property with the given
name, or `none` (the Python `None` sentinel), also when the whole collection
is absent. -/
def get_property : Option (List Property) → String → Option String
  | none, _ => none
  | some l, key => (l.find? fun p => p.name = key).map (·.value)

/-- Outcome of running a Python generator to exhaustion: the list of yielded
values, and whether the generator ended normally or by raising. -/
inductive GenOutcome where
  | normal : List (Option String) → GenOutcome
  | raised : List (Option String) → GenOutcome
deriving DecidableEq, Repr

/-- `get_properties(props, key)`: a generator over the values of the
properties with the given name.  When the collection itself is `None` the
source first yields `None` and then, lacking a `return`, falls into
`for prop in props`, which raises `TypeError` on a `None` iterable; so the
outcome is one yielded sentinel followed by an exception. -/
def get_properties : Option (List Property) → String → GenOutcome
  | none, _ => GenOutcome.raised [none]
  | some l, key =>
      GenOutcome.normal (l.filterMap fun p =>
        if p.name = key then some (some p.value) else none)

/-- Python `list.remove`: delete the first element equal to `p`. -/
def removeFirst (l : List Property) (p : Property) : List Property :=
  match l with
  | [] => []
  | q :: rest => if q = p then rest else q :: removeFirst rest p

/-- The loop of `remove_properties` with an explicit iteration bound: Python
iterates with an internal index that advances every step, while
`props.remove(prop)` shifts later elements down, so the element right after
a removed one is never examined.  The index grows by one each step and the
list never grows, so `l.length - i` bounds the number of iterations. -/
def removeLoopF : Nat → String → List Property → Nat → List Property
  | 0, _, l, _ => l
  | fuel + 1, key, l, i =>
    if h : i < l.length then
      let p := l.get ⟨i, h⟩
      if p.name = key then removeLoopF fuel key (removeFirst l p) (i + 1)
      else removeLoopF fuel key l (i + 1)
    else l

/-- The remove-during-iteration loop of `remove_properties`, started with
enough fuel to run to the end of the list. -/
def removeLoop (key : String) (l : List Property) (i : Nat) : List Property :=
  removeLoopF (l.length - i) key l i

/-- `remove_properties(props, key)`: returns immediately when the collection
is absent, otherwise runs the remove-during-iteration loop. -/
def remove_properties : Option (List Property) → String → Option (List Property)
  | none, _ => none
  | some l, key => some (removeLoop key l 0)

/-- Python `%-Ns` formatting: left-justify in a field of width `w`, padding
with spaces; a longer string is kept whole. -/
def ljust (s : String) (w : Nat) : String :=
  s ++ String.mk (List.replicate (w - s.length) ' ')

/-- Python `%s` applied to an optional value: `None` renders as `None`. -/
def pyStr : Option String → String
  | none => "None"
  | some s => s

/-- The loop of `print_tests`: walk the cases, write the label before the
first matching name, track the column counter `pos` exactly as the source
does (`name_len = len(name) + 1`, then `pos += name_len + 1`), and emit a
newline plus a 4-space indent before a name whenever the updated counter
exceeds 76.  Returns the text written and the final `found` flag. -/
def print_tests_go (rt : RStatus) (label : String) :
    List TestCase → Bool → Nat → String × Bool
  | [], found, _ => ("", found)
  | tc :: rest, found, pos =>
    if tc.result ≠ rt then print_tests_go rt label rest found pos
    else
      let pre := if found then "" else "  " ++ label ++ ": "
      let pos1 := if found then pos else label.length + 4
      let name_len := tc.name.length + 1
      let pos2 := pos1 + name_len + 1
      let wrap := if pos2 > 76 then "\n    " else ""
      let pos3 := if pos2 > 76 then name_len + 5 else pos2
      (pre ++ wrap ++ tc.name ++ " " ++ (print_tests_go rt label rest true pos3).1,
        (print_tests_go rt label rest true pos3).2)

/-- `print_tests(out_f, testsuite, result_type, type_label)`: the text it
writes — the wrapped list of names of the cases whose result kind matches,
closed by a newline when at least one matched, empty otherwise. -/
def print_tests (ts : TestSuite) (rt : RStatus) (label : String) : String :=
  (print_tests_go rt label ts.cases false 0).1
    ++ (if (print_tests_go rt label ts.cases false 0).2 then "\n" else "")

/-- Status column of a verbose detail line, from the chain of `isinstance`
tests in `print_summary`. -/
def statusStr : RStatus → String
  | RStatus.pass => "Pass"
  | RStatus.failure => "Failed"
  | RStatus.skipped => "Skipped"
  | RStatus.error => "Error"

/-- `print_summary(out_f, testsuite, verbose)`: the text it writes.  First
the one-line summary (config name, tests, then failures / errors / skipped
clauses each only when positive, then seconds), then either the verbose
per-case detail lines or, in compact mode, the failure name list when
`failures > 0` with the error name list nested inside that branch when
additionally `errors > 0`. -/
def print_summary (ts : TestSuite) (verbose : Bool) : String :=
  let cfg := match get_property ts.properties "TESTCFG" with
    | some v => some v
    | none => get_property ts.properties "FSTESTCFG"
  pyStr cfg ++ ": " ++ toString ts.tests ++ " tests, "
    ++ (if ts.failures > 0 then toString ts.failures ++ " failures, " else "")
    ++ (if ts.errors > 0 then toString ts.errors ++ " errors, " else "")
    ++ (if ts.skipped > 0 then toString ts.skipped ++ " skipped, " else "")
    ++ toString ts.time ++ " seconds\n"
    ++ (if verbose then
          String.join (ts.cases.map fun tc =>
            "  " ++ ljust tc.name 12 ++ " " ++ ljust (statusStr tc.result) 8
              ++ " " ++ toString tc.time ++ "s\n")
        else if ts.failures > 0 then
          print_tests ts RStatus.failure "Failures"
            ++ (if ts.errors > 0 then print_tests ts RStatus.error "Errors" else "")
        else "")

/-- `print_property_line(out_f, props, key)`: one header or trailer line,
written only when the first value for `key` exists and is non-empty. -/
def print_property_line (props : Option (List Property)) (key : String) : String :=
  match get_property props key with
  | none => ""
  | some v => if v ≠ "" then ljust (key ++ ":") 10 ++ " " ++ v ++ "\n" else ""

/-- `print_properties(out_f, props, key)`: one line per value yielded by
`get_properties`, with no presence or emptiness check.  Returns the text
written before the generator ends, and whether the generator raised. -/
def print_properties (props : Option (List Property)) (key : String) :
    String × Bool :=
  let render := fun (vs : List (Option String)) =>
    String.join (vs.map fun v => ljust (key ++ ":") 10 ++ " " ++ pyStr v ++ "\n")
  match get_properties props key with
  | GenOutcome.normal vs => (render vs, false)
  | GenOutcome.raised vs => (render vs, true)

/-- `print_header(out_f, props)`: the six single-value header lines followed
by a blank line. -/
def print_header (props : Option (List Property)) : String :=
  print_property_line props "TESTRUNID"
    ++ print_property_line props "KERNEL"
    ++ print_property_line props "CMDLINE"
    ++ print_property_line props "CPUS"
    ++ print_property_line props "MEM"
    ++ print_property_line props "MNTOPTS"
    ++ "\n"

/-- `print_trailer(out_f, props)`: a blank line, two single-value lines, the
multi-value FSTESTVER lines, then five more single-value lines.  The second
component records whether the multi-value generator raised, in which case
the text after it is never written. -/
def print_trailer (props : Option (List Property)) : String × Bool :=
  let a := "\n" ++ print_property_line props "FSTESTIMG"
    ++ print_property_line props "FSTESTPRJ"
  let (b, raisedB) := print_properties props "FSTESTVER"
  if raisedB then (a ++ b, true)
  else
    (a ++ b ++ print_property_line props "FSTESTCFG"
      ++ print_property_line props "FSTESTSET"
      ++ print_property_line props "FSTESTEXC"
      ++ print_property_line props "FSTESTOPT"
      ++ print_property_line props "GCE ID", false)

/-- `total_tests(testsuites)`: the sum of the per-suite `tests` counters.
Counters are modelled as always present, so the `is not None` guard of the
source is vacuous here. -/
def total_tests (l : List TestSuite) : Nat :=
  l.foldl (fun acc ts => acc + ts.tests) 0

/-- `sum_testsuites(testsuites)`: the (tests, skipped, failures, errors,
runtime) totals over all suites. -/
def sum_testsuites (l : List TestSuite) : Nat × Nat × Nat × Nat × Nat :=
  l.foldl
    (fun acc ts =>
      (acc.1 + ts.tests, acc.2.1 + ts.skipped, acc.2.2.1 + ts.failures,
        acc.2.2.2.1 + ts.errors, acc.2.2.2.2 + ts.time))
    (0, 0, 0, 0, 0)

/-- The totals line of the report. -/
def totals_line (l : List TestSuite) : String :=
  let t := sum_testsuites l
  "Totals: " ++ toString t.1 ++ " tests, " ++ toString t.2.1 ++ " skipped, "
    ++ toString t.2.2.1 ++ " failures, " ++ toString t.2.2.2.1 ++ " errors, "
    ++ toString t.2.2.2.2 ++ "s\n"

/-- Whether a year of the proleptic Gregorian calendar is a leap year. -/
def isLeap (y : Nat) : Bool :=
  (y % 4 = 0 && y % 100 ≠ 0) || y % 400 = 0

/-- Number of days of month `m` of year `y`. -/
def daysInMonth (y m : Nat) : Nat :=
  if m = 2 then (if isLeap y then 29 else 28)
  else if m = 4 || m = 6 || m = 9 || m = 11 then 30
  else 31

/-- Days in the months of year `y` strictly before month `m`. -/
def daysBeforeMonth (y m : Nat) : Nat :=
  (List.range (m - 1)).foldl (fun acc k => acc + daysInMonth y (k + 1)) 0

/-- Days from the start of year 1 to the start of year `y`. -/
def daysBeforeYear (y : Nat) : Nat :=
  let n := y - 1
  n * 365 + n / 4 - n / 100 + n / 400

/-- Numeric value of a decimal digit character, `none` otherwise. -/
def digitVal (c : Char) : Option Nat :=
  if c.isDigit then some (c.toNat - 48) else none

/-- Read a two-digit number off the front of a character list. -/
def parse2 : List Char → Option (Nat × List Char)
  | c1 :: c2 :: rest => do
    let a ← digitVal c1
    let b ← digitVal c2
    some (10 * a + b, rest)
  | _ => none

/-- Read a four-digit number off the front of a character list. -/
def parse4 : List Char → Option (Nat × List Char)
  | c1 :: c2 :: c3 :: c4 :: rest => do
    let a ← digitVal c1
    let b ← digitVal c2
    let c ← digitVal c3
    let d ← digitVal c4
    some (1000 * a + 100 * b + 10 * c + d, rest)
  | _ => none

/-- Consume one expected literal character. -/
def expectChar (c : Char) : List Char → Option (List Char)
  | d :: rest => if d = c then some rest else none
  | _ => none

/-- Modelled from the spec: `parse_timestamp` calls the external library
functions `datetime.strptime` (pattern `%Y-%m-%dT%H:%M:%S`) and
`time.mktime`, which are not part of the sources; per the spec it parses a
`YYYY-MM-DDTHH:MM:SS` string and converts it to a comparable absolute time
value, here the number of seconds since the start of year 1 of the
proleptic Gregorian calendar.  `none` models the `ValueError` the library
raises on a malformed string or an out-of-range field. -/
def parse_timestamp (s : String) : Option Nat := do
  let (year, r1) ← parse4 s.toList
  let r2 ← expectChar '-' r1
  let (month, r3) ← parse2 r2
  let r4 ← expectChar '-' r3
  let (day, r5) ← parse2 r4
  let r6 ← expectChar 'T' r5
  let (hour, r7) ← parse2 r6
  let r8 ← expectChar ':' r7
  let (minute, r9) ← parse2 r8
  let r10 ← expectChar ':' r9
  let (sec, r11) ← parse2 r10
  if r11 = [] ∧ 1 ≤ year ∧ 1 ≤ month ∧ month ≤ 12 ∧ 1 ≤ day ∧
      day ≤ daysInMonth year month ∧ hour ≤ 23 ∧ minute ≤ 59 ∧ sec ≤ 59 then
    some ((daysBeforeYear year + daysBeforeMonth year month + (day - 1)) * 86400
      + hour * 3600 + minute * 60 + sec)
  else none

/-- Split a marker line at the first occurrence of the separator `: `
(Python `line.split(': ', 1)`); `none` when the separator is absent, where
the source raises `ValueError` on tuple unpacking. -/
def splitKV : List Char → Option (List Char × List Char)
  | [] => none
  | ':' :: ' ' :: rest => some ([], rest)
  | c :: rest => (splitKV rest).map fun p => (c :: p.1, p.2)

/-- Python `value.rstrip(backslash-n)`: drop the trailing run of newlines. -/
def rstripNewline (l : List Char) : List Char :=
  (l.reverse.dropWhile (· = '\n')).reverse

/-- Python `value.strip(quote)`: drop the leading and trailing runs of
double-quote characters. -/
def stripQuotes (l : List Char) : List Char :=
  ((l.dropWhile (· = '"')).reverse.dropWhile (· = '"')).reverse

/-- The line loop of `check_for_ltm`: for each marker line, split it at
`: `, strip the trailing newline and surrounding quotes from the value,
remove the existing properties with that key and append one new property.
`none` models the `ValueError` raised on a line without the separator. -/
def apply_marker_lines (props : List Property) :
    List String → Option (List Property)
  | [] => some props
  | line :: rest => do
    let (k, v) ← splitKV line.toList
    let key := String.mk k
    let value := String.mk (stripQuotes (rstripNewline v))
    apply_marker_lines (removeLoop key props 0 ++ [⟨key, value⟩]) rest

/-- `check_for_ltm(results_dir, props)`, with the marker file contents
passed in (`none` = the file is absent and `open` raises `IOError`, which
the source catches and turns into `False`): applies every marker line as an
override, then drops the `GCE ID` and `FSTESTCFG` properties and reports
LTM mode.  The outer `none` models the uncaught `ValueError` of a malformed
line. -/
def check_for_ltm (marker : Option (List String)) (props : List Property) :
    Option (Bool × List Property) :=
  match marker with
  | none => some (false, props)
  | some lines =>
    (apply_marker_lines props lines).map fun ps =>
      (true, removeLoop "FSTESTCFG" (removeLoop "GCE ID" ps 0) 0)

/-- `check_for_ltm` as called from `gen_results_summary`, where the first
report may lack a properties element: with the marker present and at least
one line, `props.add_property` is called on `None` and raises. -/
def check_for_ltm_opt (marker : Option (List String)) :
    Option (List Property) → Option (Bool × Option (List Property))
  | some props => (check_for_ltm marker props).map fun r => (r.1, some r.2)
  | none =>
    match marker with
    | none => some (false, none)
    | some [] => some (true, none)
    | some (_ :: _) => none

/-- The ordering pass of `gen_results_summary`: Python `sorted` with the
selected key — hostname in LTM mode, the parsed timestamp otherwise.
`sorted` is a stable ascending sort, modelled by the stable
`List.insertionSort`; `none` when a timestamp fails to parse, where the key
function raises. -/
def reportOrder (ltm : Bool) (reports : List TestSuite) :
    Option (List TestSuite) :=
  if ltm then
    some (List.insertionSort (fun a b => a.hostname ≤ b.hostname) reports)
  else if reports.all fun ts => (parse_timestamp ts.timestamp).isSome then
    some (List.insertionSort
      (fun a b => (parse_timestamp a.timestamp).getD 0
        ≤ (parse_timestamp b.timestamp).getD 0) reports)
  else none

/-- Observable outcome of one `gen_results_summary` run: whether the named
output file was opened, the text written to the report output, the return
value, and whether the archive merge path was written. -/
structure GenResult where
  opened : Bool
  text : String
  retval : Nat
  archive : Bool
deriving DecidableEq, Repr

/-- The pipeline of `gen_results_summary` with `verbose` the (possibly
forced) flag actually used: the zero-reports early return comes before the
output file is opened and before anything is written; otherwise the header,
the per-suite summaries in sorted order, the totals line and the trailer
are written.  `none` models an uncaught exception anywhere in the
pipeline. -/
def gen_with_verbose (reports : List TestSuite) (marker : Option (List String))
    (output_fn merge_fn : Bool) (verbose : Bool) : Option GenResult :=
  if reports.length = 0 then some ⟨false, "", 0, false⟩
  else do
    let props0 := match reports.head? with
      | some r => r.properties
      | none => none
    let (ltm, props) ← check_for_ltm_opt marker props0
    let ordered ← reportOrder ltm reports
    let (trailerText, raisedT) := print_trailer props
    if raisedT then none
    else
      some ⟨output_fn,
        print_header props
          ++ String.join (ordered.map fun ts => print_summary ts verbose)
          ++ totals_line reports ++ trailerText,
        reports.length, merge_fn⟩

/-- `gen_results_summary(results_dir, output_fn, merge_fn, verbose)` on the
loaded reports and marker file contents: forces verbose mode when the total
test count over all suites is under 30, then runs the pipeline. -/
def gen_results_summary (reports : List TestSuite)
    (marker : Option (List String)) (output_fn merge_fn : Bool)
    (verbose : Bool) : Option GenResult :=
  gen_with_verbose reports marker output_fn merge_fn
    (if total_tests reports < 30 then true else verbose)

/-! Spec-side definitions: restatements of what the claims say, written from
the words of the claims and compared with the definitions above, plus
concrete example data. -/

/-- Summary line as claim C7 words it: config name (first value of TESTCFG
when present, else of FSTESTCFG, else the placeholder the lookup renders),
then the tests count, then the failures, errors and skipped clauses in that
fixed order, each present exactly when its count is positive, then the
always-present seconds clause. -/
def summary_line_spec (ts : TestSuite) : String :=
  let cfg := match get_property ts.properties "TESTCFG" with
    | some v => some v
    | none => get_property ts.properties "FSTESTCFG"
  pyStr cfg ++ ": " ++ toString ts.tests ++ " tests, "
    ++ (if ts.failures > 0 then toString ts.failures ++ " failures, " else "")
    ++ (if ts.errors > 0 then toString ts.errors ++ " errors, " else "")
    ++ (if ts.skipped > 0 then toString ts.skipped ++ " skipped, " else "")
    ++ toString ts.time ++ " seconds\n"

/-- Compact-mode name lists as claim C1 words them: the failures list when
failures are positive and, independently of that, the errors list when
errors are positive. -/
def compact_lists_independent (ts : TestSuite) : String :=
  (if ts.failures > 0 then print_tests ts RStatus.failure "Failures" else "")
    ++ (if ts.errors > 0 then print_tests ts RStatus.error "Errors" else "")

/-- Names of the cases of a list whose result kind matches. -/
def matching_names_list (cases : List TestCase) (rt : RStatus) : List String :=
  (cases.filter fun tc => tc.result = rt).map (·.name)

/-- Names of the cases of a suite whose result kind matches. -/
def matching_names (ts : TestSuite) (rt : RStatus) : List String :=
  matching_names_list ts.cases rt

/-- Wrapped name list as claim C6 words it: the running column position
counts the characters actually on the current line, and a newline plus a
4-space indent is emitted before a name exactly when appending the name
plus one trailing space would push that position past column 76. -/
def wrapNamesByColumn : List String → Nat → String
  | [], _ => ""
  | n :: rest, pos =>
    if pos + n.length + 1 > 76 then
      "\n    " ++ n ++ " " ++ wrapNamesByColumn rest (4 + n.length + 1)
    else n ++ " " ++ wrapNamesByColumn rest (pos + n.length + 1)

/-- The compact name list rendered by the rule of claim C6. -/
def print_tests_claim (ts : TestSuite) (rt : RStatus) (label : String) : String :=
  if matching_names ts rt = [] then ""
  else "  " ++ label ++ ": "
    ++ wrapNamesByColumn (matching_names ts rt) (label.length + 4) ++ "\n"

/-- Wrapped name list with the position counter the source actually tracks:
each name advances the counter by its length plus two — one more than the
number of characters written — and a newline plus a 4-space indent is
emitted before a name exactly when the advanced counter exceeds 76, the
counter restarting at the name length plus six.  Names are never split and
are space-separated on a line. -/
def wrapNamesTracked : List String → Nat → String
  | [], _ => ""
  | n :: rest, pos =>
    if pos + n.length + 2 > 76 then
      "\n    " ++ n ++ " " ++ wrapNamesTracked rest (n.length + 6)
    else n ++ " " ++ wrapNamesTracked rest (pos + n.length + 2)

/-- The compact name list rendered with the tracked counter of the source:
the target of the amended claim C6. -/
def print_tests_amended (ts : TestSuite) (rt : RStatus) (label : String) : String :=
  if matching_names ts rt = [] then ""
  else "  " ++ label ++ ": "
    ++ wrapNamesTracked (matching_names ts rt) (label.length + 4) ++ "\n"

/-- Multi-value property lines as claim C9 words them: one line per value,
printed only when the value is present and non-empty — the same rule the
single-value lines follow. -/
def print_properties_claim (props : Option (List Property)) (key : String) :
    String :=
  match props with
  | none => ""
  | some l =>
    String.join
      (((l.filter fun p => p.name = key ∧ p.value ≠ "").map fun p => p.value).map
        fun v => ljust (key ++ ":") 10 ++ " " ++ v ++ "\n")

/-- Trailer block as claim C9 words it: every line, the multi-value
FSTESTVER lines included, printed only when its value is present and
non-empty. -/
def print_trailer_claim (props : Option (List Property)) : String :=
  "\n" ++ print_property_line props "FSTESTIMG"
    ++ print_property_line props "FSTESTPRJ"
    ++ print_properties_claim props "FSTESTVER"
    ++ print_property_line props "FSTESTCFG"
    ++ print_property_line props "FSTESTSET"
    ++ print_property_line props "FSTESTEXC"
    ++ print_property_line props "FSTESTOPT"
    ++ print_property_line props "GCE ID"

/-- Example suite: one erroring case, no failing case. -/
def exErrorsOnly : TestSuite :=
  ⟨[⟨"generic/001", RStatus.error, 3⟩], 2, 0, 0, 1, 10,
    "2020-01-01T00:00:00", "host-a", some [⟨"TESTCFG", "ext4/4k"⟩]⟩

/-- A 60-character test name. -/
def exLongName : String := String.mk (List.replicate 60 'x')

/-- Example suite whose two failing names sit just at the wrap boundary:
after the 1-character first name the true column is 14, and 14 + 60 + 1
does not pass 76, yet the tracked counter wraps. -/
def exWrap : TestSuite :=
  ⟨[⟨"a", RStatus.failure, 1⟩, ⟨exLongName, RStatus.failure, 1⟩], 2, 0, 2, 0, 9,
    "2020-01-01T00:00:00", "host-a", none⟩

/-- Example suite with a small test count. -/
def exSmall : TestSuite :=
  ⟨[], 5, 0, 0, 0, 7, "2020-01-01T00:00:00", "host-a", some []⟩

/-- Example suite with the later timestamp and the later hostname. -/
def exTsA : TestSuite :=
  ⟨[], 40, 0, 0, 0, 5, "2020-01-02T00:00:00", "host-b", some []⟩

/-- Example suite with the earlier timestamp and the earlier hostname. -/
def exTsB : TestSuite :=
  ⟨[], 40, 0, 0, 0, 5, "2020-01-01T00:00:00", "host-a", some []⟩

/-! Helper lemmas shared by the claim theorems. -/

theorem print_tests_go_found (rt : RStatus) (label : String)
    (cases : List TestCase) : ∀ pos : Nat,
    print_tests_go rt label cases true pos
      = (wrapNamesTracked (matching_names_list cases rt) pos, true) := by
  induction cases with
  | nil => intro pos; rfl
  | cons tc rest ih =>
    intro pos
    by_cases h : tc.result = rt
    · have e2 : pos + (tc.name.length + 1) + 1 = pos + tc.name.length + 2 := by
        omega
      have e3 : tc.name.length + 1 + 5 = tc.name.length + 6 := by omega
      simp only [print_tests_go, h, ne_eq, not_true_eq_false, if_false,
        if_true, matching_names_list, List.filter_cons, List.map_cons,
        wrapNamesTracked, ih, e2, e3, decide_eq_true_eq, ite_true, ite_false]
      by_cases hc : pos + tc.name.length + 2 > 76
      · simp [hc]
      · simp [hc]
    · simp only [print_tests_go, h, ne_eq, not_false_eq_true, if_true,
        matching_names_list, List.filter_cons]
      simp only [h, decide_eq_true_eq, if_false, ite_false]
      exact ih pos

theorem print_tests_go_start (rt : RStatus) (label : String)
    (cases : List TestCase) : ∀ pos0 : Nat,
    print_tests_go rt label cases false pos0
      = if matching_names_list cases rt = [] then (("" : String), false)
        else ("  " ++ label ++ ": "
          ++ wrapNamesTracked (matching_names_list cases rt) (label.length + 4),
          true) := by
  induction cases with
  | nil => intro pos0; rfl
  | cons tc rest ih =>
    intro pos0
    by_cases h : tc.result = rt
    · have e2 : label.length + 4 + (tc.name.length + 1) + 1
          = label.length + 4 + tc.name.length + 2 := by omega
      have e3 : tc.name.length + 1 + 5 = tc.name.length + 6 := by omega
      have hm : matching_names_list (tc :: rest) rt
          = tc.name :: matching_names_list rest rt := by
        simp [matching_names_list, h]
      rw [hm, if_neg (List.cons_ne_nil _ _)]
      simp only [print_tests_go, h, ne_eq, not_true_eq_false, if_false,
        ite_true, ite_false, Bool.false_eq_true, print_tests_go_found,
        wrapNamesTracked, e2, e3, Prod.mk.injEq, and_true]
      by_cases hc : label.length + 4 + tc.name.length + 2 > 76
      · simp only [hc, if_true, ite_true, String.append_assoc]
      · simp only [hc, if_false, ite_false, String.append_empty,
          String.append_assoc]
    · simp only [print_tests_go, h, ne_eq, not_false_eq_true, if_true,
        matching_names_list, List.filter_cons]
      simp only [h, decide_eq_true_eq, if_false, ite_false]
      exact ih pos0

theorem filterMap_if_eq (l : List Property) (key : String) :
    (l.filterMap fun p => if p.name = key then some (some p.value) else none)
      = ((l.filter fun p => p.name = key).map fun p => some p.value) := by
  induction l with
  | nil => rfl
  | cons p rest ih =>
    by_cases h : p.name = key
    · simp [h, ih]
    · simp [h, ih]

/-! Claim theorems. -/

/-- Claim C10 (confirmed): for every property name, when the whole
properties collection is absent the multi-value lookup does not produce an
empty sequence — it yields the absent sentinel once and then iteration
raises instead of terminating normally. -/
theorem claim_C10 (key : String) :
    get_properties none key = GenOutcome.raised [none] := rfl

/-- Claim C8 (confirmed): with zero discovered record files the run returns
0, writes no text, never opens the caller-named output file and never
touches the archive path. -/
theorem claim_C8 (marker : Option (List String)) (output_fn merge_fn v : Bool) :
    gen_results_summary [] marker output_fn merge_fn v
      = some ⟨false, "", 0, false⟩ := rfl

/-- Claim C2 (code bug): `remove_properties` is meant to delete every entry
with the given name, but the remove-during-iteration loop skips the entry
that slides into the removed slot, so of two adjacent same-named entries
the second survives. -/
theorem claim_C2_bug :
    remove_properties (some [⟨"K", "a"⟩, ⟨"K", "b"⟩]) "K"
      = some [⟨"K", "b"⟩] := by decide

/-- Claim C3 (code bug): applying the marker twice with identical content is
not idempotent on a collection holding adjacent same-named entries: the
first application leaves a stale entry behind (the claim C2 bug), and the
second application removes the stale entry while appending a duplicate of
the marker value. -/
theorem claim_C3_bug :
    check_for_ltm (some ["K: \"v\"\n"]) [⟨"K", "a"⟩, ⟨"K", "b"⟩]
        = some (true, [⟨"K", "b"⟩, ⟨"K", "v"⟩])
      ∧ check_for_ltm (some ["K: \"v\"\n"]) [⟨"K", "b"⟩, ⟨"K", "v"⟩]
        = some (true, [⟨"K", "v"⟩, ⟨"K", "v"⟩])
      ∧ ([⟨"K", "b"⟩, ⟨"K", "v"⟩] : List Property)
        ≠ [⟨"K", "v"⟩, ⟨"K", "v"⟩] := by
  refine ⟨by decide, by decide, by decide⟩

/-- Claim C1, amended: in compact display mode the failures list is emitted
when the failures count is positive, and the errors list is emitted only
when additionally the errors count is positive — the errors check is nested
inside the failures branch, so with zero failures nothing beyond the
summary line is emitted even when errors are positive. -/
theorem claim_C1 (ts : TestSuite) :
    (ts.failures = 0 → print_summary ts false = summary_line_spec ts) ∧
    (0 < ts.failures → print_summary ts false
      = summary_line_spec ts ++ (print_tests ts RStatus.failure "Failures"
        ++ if 0 < ts.errors then print_tests ts RStatus.error "Errors"
           else "")) := by
  constructor
  · intro h
    simp [print_summary, summary_line_spec, h]
  · intro h
    simp [print_summary, summary_line_spec, h]

/-- Witness for claim C1 at a concrete suite with no failures. -/
theorem claim_C1_witness :
    print_summary exErrorsOnly false = summary_line_spec exErrorsOnly :=
  (claim_C1 exErrorsOnly).1 rfl

/-- Counterexample to claim C1 as stated: a suite with one error and no
failure emits no errors list in compact mode, differing from the summary
line followed by the independently emitted lists the claim describes. -/
theorem claim_C1_counterexample :
    print_summary exErrorsOnly false
      ≠ summary_line_spec exErrorsOnly
        ++ compact_lists_independent exErrorsOnly := by decide

/-- Claim C4 (confirmed): the report body order of a run is the loaded
suites sorted ascending by the parsed numeric timestamp when no marker file
is present, and ascending by hostname when the marker file is present,
irrespective of timestamps. -/
theorem claim_C4 (reports : List TestSuite) :
    (∀ l, reportOrder false reports = some l →
      reports.Perm l ∧ l.Pairwise fun a b =>
        (parse_timestamp a.timestamp).getD 0
          ≤ (parse_timestamp b.timestamp).getD 0) ∧
    (∀ l, reportOrder true reports = some l →
      reports.Perm l ∧ l.Pairwise fun a b => a.hostname ≤ b.hostname) := by
  constructor
  · intro l hl
    unfold reportOrder at hl
    simp only [Bool.false_eq_true, if_false, ite_false] at hl
    split at hl
    · cases hl
      haveI : IsTotal TestSuite (fun a b =>
          (parse_timestamp a.timestamp).getD 0
            ≤ (parse_timestamp b.timestamp).getD 0) := ⟨fun a b => le_total _ _⟩
      haveI : IsTrans TestSuite (fun a b =>
          (parse_timestamp a.timestamp).getD 0
            ≤ (parse_timestamp b.timestamp).getD 0) :=
        ⟨fun _ _ _ hab hbc => le_trans hab hbc⟩
      exact ⟨(List.perm_insertionSort _ _).symm, List.sorted_insertionSort _ _⟩
    · cases hl
  · intro l hl
    unfold reportOrder at hl
    simp only [if_true, ite_true] at hl
    cases hl
    haveI : IsTotal TestSuite (fun a b => a.hostname ≤ b.hostname) :=
      ⟨fun a b => le_total _ _⟩
    haveI : IsTrans TestSuite (fun a b => a.hostname ≤ b.hostname) :=
      ⟨fun _ _ _ hab hbc => le_trans hab hbc⟩
    exact ⟨(List.perm_insertionSort _ _).symm, List.sorted_insertionSort _ _⟩

/-- Witness for claim C4 at two concrete suites with distinct timestamps:
without the marker the report body is the timestamp-ascending permutation. -/
theorem claim_C4_witness :
    ([exTsA, exTsB] : List TestSuite).Perm [exTsB, exTsA] ∧
      List.Pairwise (fun a b => (parse_timestamp a.timestamp).getD 0
        ≤ (parse_timestamp b.timestamp).getD 0) [exTsB, exTsA] :=
  (claim_C4 [exTsA, exTsB]).1 [exTsB, exTsA] (by decide)

/-- Claim C5 (confirmed): with a total test count under 30 the report is
generated as if the verbose flag were set, whatever the caller supplied;
with a total of at least 30 the pipeline runs with the caller-supplied flag
unchanged. -/
theorem claim_C5 (reports : List TestSuite) (marker : Option (List String))
    (output_fn merge_fn v : Bool) :
    (total_tests reports < 30 →
      gen_results_summary reports marker output_fn merge_fn v
        = gen_with_verbose reports marker output_fn merge_fn true) ∧
    (30 ≤ total_tests reports →
      gen_results_summary reports marker output_fn merge_fn v
        = gen_with_verbose reports marker output_fn merge_fn v) := by
  constructor
  · intro h
    unfold gen_results_summary
    rw [if_pos h]
  · intro h
    unfold gen_results_summary
    rw [if_neg (by omega)]

/-- Witness for claim C5 at a concrete one-suite run with 5 tests. -/
theorem claim_C5_witness :
    gen_results_summary [exSmall] none false false false
      = gen_with_verbose [exSmall] none false false true :=
  (claim_C5 [exSmall] none false false false).1 (by decide)

/-- Claim C6, amended: the compact name list prints the matching names
space-separated, never splitting a name, with the label first; the wrap
before a name happens exactly when the tracked position counter — which
advances by the name length plus two per name, one column more than the
characters actually written — would exceed 76, restarting at the name
length plus six after a wrap. -/
theorem claim_C6 (ts : TestSuite) (rt : RStatus) (label : String) :
    print_tests ts rt label = print_tests_amended ts rt label := by
  unfold print_tests print_tests_amended matching_names
  rw [print_tests_go_start]
  by_cases h : matching_names_list ts.cases rt = []
  · simp [h]
  · simp [h]

/-- Counterexample to claim C6 as stated: with failing names of lengths 1
and 60, the true column after the first name is 14 and appending the second
name plus a space reaches only column 75, yet the source wraps, because its
tracked counter overcounts each name by one column. -/
theorem claim_C6_counterexample :
    print_tests exWrap RStatus.failure "Failures"
      ≠ print_tests_claim exWrap RStatus.failure "Failures" := by decide

/-- Claim C7 (confirmed): the per-suite output starts with the summary line
in the claimed form — config name from TESTCFG, else FSTESTCFG, else the
rendered absent placeholder, then the tests count, the three conditional
clauses in fixed order, and the unconditional seconds clause. -/
theorem claim_C7 (ts : TestSuite) (v : Bool) :
    ∃ rest, print_summary ts v = summary_line_spec ts ++ rest :=
  ⟨_, rfl⟩

/-- Claim C9, amended: the single-value trailer lines are printed only when
their value is present and non-empty, but the multi-value FSTESTVER lookup
prints one line for every value of the property, with no emptiness check. -/
theorem claim_C9 (l : List Property) (key : String) :
    print_properties (some l) key
      = (String.join
          (((l.filter fun p => p.name = key).map fun p => p.value).map
            fun v => ljust (key ++ ":") 10 ++ " " ++ v ++ "\n"), false) := by
  simp only [print_properties, get_properties, filterMap_if_eq, List.map_map]
  refine congrArg (fun s => (String.join s, false)) ?_
  apply List.map_congr_left
  intro p _
  rfl

/-- Counterexample to claim C9 as stated: a properties collection holding
FSTESTVER with an empty value produces a trailer line for it, while the
trailer following the claimed present-and-non-empty rule omits it. -/
theorem claim_C9_counterexample :
    (print_trailer (some [⟨"FSTESTVER", ""⟩])).1
      ≠ print_trailer_claim (some [⟨"FSTESTVER", ""⟩]) := by decide

end GenResultsSummary
